import Mathlib

/-!
Verification of the psycopg3 connection pool (`psycopg3/pool.py`).

The pool's lock-protected critical sections are embedded as pure functions on
an explicit `PoolState`; connections are records carrying the fields the pool
reads and writes (transaction status, closed flag, pool back-reference);
monotonic time and delays are rationals.  Background effects that the code
performs after releasing the lock (signalling a waiter, closing an evicted
connection, scheduling a retry) are returned as explicit data so theorems can
talk about them.
-/

namespace Psycopg

/-- The transaction status values of `psycopg3.pq.TransactionStatus` read by
the pool (`IDLE`, `ACTIVE`, `INTRANS`, `INERROR`, `UNKNOWN`). -/
inductive TransactionStatus where
  | IDLE
  | ACTIVE
  | INTRANS
  | INERROR
  | UNKNOWN
deriving DecidableEq, Repr

/-- A connection as seen by the pool: the transaction status reported by
`conn.pgconn.transaction_status`, whether `conn.close()` has been called,
the `_pool` back-reference (a pool identifier or none), plus an identity tag
and a flag saying whether a `rollback()` on it would succeed. -/
structure Connection where
  ident : Nat
  transaction_status : TransactionStatus
  rollback_ok : Bool
  is_closed : Bool
  pool_ref : Option Nat
deriving DecidableEq, Repr

/-- Modelled from the spec: `close()` on a Connection is infallible and
idempotent (§6), and a closed connection's transaction status reads as
unknown ("status becomes unknown, triggering replacement", §4.4.5).
`connection.py` is not part of the sources, so this collaborator contract
comes from the spec. -/
def Connection.closeIt (c : Connection) : Connection :=
  { c with is_closed := true, transaction_status := .UNKNOWN }

/-- Modelled from the spec: `rollback()` may throw (§6); on success it brings
the session back to `IDLE` ("Bring a connection to IDLE state or close it").
Whether it throws is the connection's `rollback_ok` flag; the failure branch
is handled by the caller. -/
def Connection.rollbackIt (c : Connection) : Connection :=
  { c with transaction_status := .IDLE }

/-- The maintenance tasks that the pool posts to its worker queue
(`AddInitialConnection`, `AddConnection`, `ReturnConnection`, `StopWorker`). -/
inductive PoolTask where
  | AddInitialConnection
  | AddConnection
  | ReturnConnection (c : Connection)
  | StopWorker
deriving DecidableEq, Repr

/-- The pool state protected by `self._lock`, together with the immutable
configuration and the multiset of tasks currently posted to the worker
queue.  `pool` is the idle deque `self._pool` of (connection, deposit time)
pairs: the list head is the deque's left end (oldest, `popleft`), the list
tail its right end (newest, `append`/`pop`).  `waiting` is the FIFO
`self._waiting` of waiting-client identifiers, head first. -/
structure PoolState where
  minconn : Int
  maxconn : Int
  max_idle : ℚ
  reconnect_timeout : ℚ
  num_workers : Nat
  nconns : Int
  pool : List (Connection × ℚ)
  waiting : List Nat
  is_closed : Bool
  tasks : List PoolTask
deriving DecidableEq, Repr

/-- `ConnectionPool.add_task`: put a task on the worker queue. -/
def add_task (s : PoolState) (t : PoolTask) : PoolState :=
  { s with tasks := s.tasks ++ [t] }

/-- A worker takes one task off the queue before running it. -/
def consume_task (s : PoolState) (t : PoolTask) : PoolState :=
  { s with tasks := s.tasks.erase t }

/-- The outcome of the critical section of `ConnectionPool.getconn`:
either the pool is closed and `PoolClosed` is raised, or an idle connection
is popped and returned, or the client is enqueued as a waiter (having
possibly grown the pool by posting an `AddConnection` task). -/
inductive GetconnOutcome where
  | poolClosedError
  | gotConn (c : Connection)
  | enqueued (w : Nat) (grew : Bool)
deriving DecidableEq, Repr

/-- The critical section of `ConnectionPool.getconn` (pool.py lines
155-172): under the lock, raise if closed; else pop the right end of the
idle deque if non-empty; else append a fresh waiter `w` and, if
`nconns < maxconn`, increment `nconns` and post an `AddConnection` task. -/
def getconn_cs (s : PoolState) (w : Nat) : GetconnOutcome × PoolState :=
  if s.is_closed then
    (.poolClosedError, s)
  else
    match s.pool.getLast? with
    | some (c, _) => (.gotConn c, { s with pool := s.pool.dropLast })
    | none =>
        let s1 := { s with waiting := s.waiting ++ [w] }
        if s1.nconns < s1.maxconn then
          (.enqueued w true, add_task { s1 with nconns := s1.nconns + 1 } .AddConnection)
        else
          (.enqueued w false, s1)

/-- `ConnectionPool._reset_transaction_status` (pool.py lines 270-295):
`IDLE` untouched; `INTRANS`/`INERROR` rolled back, closing the connection
when the rollback throws; `ACTIVE` closed; anything else untouched. -/
def reset_transaction_status (c : Connection) : Connection :=
  match c.transaction_status with
  | .IDLE => c
  | .INTRANS => if c.rollback_ok then c.rollbackIt else c.closeIt
  | .INERROR => if c.rollback_ok then c.rollbackIt else c.closeIt
  | .ACTIVE => c.closeIt
  | .UNKNOWN => c

/-- What `ConnectionPool._add_to_pool` leaves behind: the new pool state,
the waiter (if any) that will receive the connection via `set` after the
lock is released, the evicted idle connection (if any) that will be closed
after the lock is released, and the discarded dead connection (if any)
that was replaced by a fresh `AddConnection` task. -/
structure DepositOutcome where
  state : PoolState
  handed : Option (Nat × Connection)
  to_close : Option Connection
  discarded : Option Connection
deriving DecidableEq, Repr

/-- `ConnectionPool._add_to_pool` (pool.py lines 217-268): clear the
back-reference, reset the transaction status; if the status is then
`UNKNOWN`, discard the connection and post a replacement `AddConnection`
task; otherwise, under the lock, pop the first waiter if any, else append
`(conn, now)` to the idle deque and, if `nconns > minconn` and the oldest
entry has been idle longer than `max_idle`, pop that oldest entry and
decrement `nconns`.  The popped waiter is signalled and the evicted
connection closed after the lock is released. -/
def add_to_pool (s : PoolState) (conn0 : Connection) (now : ℚ) : DepositOutcome :=
  let conn := reset_transaction_status { conn0 with pool_ref := none }
  if conn.transaction_status = .UNKNOWN then
    { state := add_task s .AddConnection
      handed := none, to_close := none, discarded := some conn }
  else
    match s.waiting with
    | w :: rest =>
        { state := { s with waiting := rest }
          handed := some (w, conn), to_close := none, discarded := none }
    | [] =>
        match s.pool ++ [(conn, now)] with
        | [] => { state := s, handed := none, to_close := none, discarded := none }
        | (c0, t0) :: tl =>
            if s.nconns > s.minconn ∧ now - t0 > s.max_idle then
              { state := { s with pool := tl, nconns := s.nconns - 1 }
                handed := none, to_close := some c0, discarded := none }
            else
              { state := { s with pool := (c0, t0) :: tl }
                handed := none, to_close := none, discarded := none }

/-- The outcome of `ConnectionPool.putconn`: a `ValueError` when the
connection's back-reference does not name this pool; a synchronous close
(with the back-reference cleared) when the pool is closed; otherwise a
`ReturnConnection` task is posted with the connection untouched. -/
inductive PutconnOutcome where
  | valueError
  | closedSync (c : Connection)
  | returnTaskPosted
deriving DecidableEq, Repr

/-- `ConnectionPool.putconn` (pool.py lines 188-215), for the pool whose
identifier is `self_id`: raise `ValueError` unless `conn._pool is self`;
if the pool is closed, clear the back-reference and close the connection
synchronously; otherwise post `ReturnConnection(conn)`. -/
def putconn (s : PoolState) (self_id : Nat) (conn : Connection) : PutconnOutcome × PoolState :=
  if conn.pool_ref ≠ some self_id then
    (.valueError, s)
  else if s.is_closed then
    (.closedSync (Connection.closeIt { conn with pool_ref := none }), s)
  else
    (.returnTaskPosted, add_task s (.ReturnConnection conn))

/-- `ConnectionPool.close` (pool.py lines 302-330): set the closed flag,
drain the waiter queue (each drained waiter is failed with `PoolClosed`),
drain the idle deque (each drained connection is closed), and post one
`StopWorker` task per worker.  Returns the new state together with the
failed waiters and the connections that were closed. -/
def close_pool (s : PoolState) : PoolState × List Nat × List Connection :=
  ({ s with
      is_closed := true
      waiting := []
      pool := []
      tasks := s.tasks ++ List.replicate s.num_workers .StopWorker },
   s.waiting,
   (s.pool.map Prod.fst).reverse)

/-- `AddConnection.INITIAL_DELAY = 1.0`. -/
def INITIAL_DELAY : ℚ := 1

/-- `AddConnection.DELAY_JITTER = 0.1`. -/
def DELAY_JITTER : ℚ := 1 / 10

/-- `AddConnection.DELAY_BACKOFF = 2.0`. -/
def DELAY_BACKOFF : ℚ := 2

/-- The mutable state an `AddConnection` task carries across reschedules:
`self.delay` and `self.give_up_at`, both initialised to `0.0`. -/
structure AddConnectionState where
  delay : ℚ
  give_up_at : ℚ
deriving DecidableEq, Repr

/-- A fresh `AddConnection` task (`AddConnection.__init__`). -/
def AddConnectionState.initial : AddConnectionState := { delay := 0, give_up_at := 0 }

/-- What `AddConnection._handle_error` decides to do after a connection
failure: schedule `retry` after a relative delay (`sched.enter`), schedule
it at an absolute instant (`sched.enterabs`), or give up. -/
inductive RetryAction where
  | enter (delay : ℚ)
  | enterabs (at_time : ℚ)
  | giveUp
deriving DecidableEq, Repr

/-- The result of `AddConnection._handle_error`: the task's updated state,
the action taken, the pool's `nconns` afterwards, and whether
`pool.reconnect_failed()` was invoked. -/
structure HandleErrorOutcome where
  task : AddConnectionState
  action : RetryAction
  nconns : Int
  reconnect_failed_called : Bool
deriving DecidableEq, Repr

/-- `AddConnection._handle_error` (pool.py lines 481-516), with `now` the
value of `time.monotonic()` and `r` the value of `random.random()`.
If `give_up_at` is non-zero (Python truthiness of the float) and
`now >= give_up_at`: decrement `nconns` under the lock and call
`reconnect_failed`.  Otherwise, on the first failure (`delay == 0`) set
`give_up_at := now + reconnect_timeout` and
`delay := INITIAL_DELAY + INITIAL_DELAY * (2 * DELAY_JITTER * r - DELAY_JITTER)`;
on later failures multiply `delay` by `DELAY_BACKOFF`; then schedule the
retry after `delay` if `now + delay < give_up_at`, else at `give_up_at`. -/
def handle_error (t : AddConnectionState) (s : PoolState) (now r : ℚ) :
    HandleErrorOutcome :=
  if t.give_up_at ≠ 0 ∧ now ≥ t.give_up_at then
    { task := t, action := .giveUp, nconns := s.nconns - 1
      reconnect_failed_called := true }
  else
    let t1 : AddConnectionState :=
      if t.delay = 0 then
        let jitter := INITIAL_DELAY * (2 * DELAY_JITTER * r - DELAY_JITTER)
        { delay := INITIAL_DELAY + jitter, give_up_at := now + s.reconnect_timeout }
      else
        { t with delay := t.delay * DELAY_BACKOFF }
    if now + t1.delay < t1.give_up_at then
      { task := t1, action := .enter t1.delay, nconns := s.nconns
        reconnect_failed_called := false }
    else
      { task := t1, action := .enterabs t1.give_up_at, nconns := s.nconns
        reconnect_failed_called := false }

/-- The two `ValueError`s `ConnectionPool.__init__` can raise while
validating its arguments. -/
inductive ConfigError where
  | maxconnLtMinconn
  | numWorkersLtOne
deriving DecidableEq, Repr

/-- The argument validation of `ConnectionPool.__init__` (pool.py lines
54-67), run before any thread is started: default `maxconn` to `minconn`
when absent, raise if `maxconn < minconn`, raise if `num_workers < 1`. -/
def validate_config (minconn : Int) (maxconn? : Option Int) (num_workers : Int) :
    Option ConfigError :=
  let maxconn := maxconn?.getD minconn
  if maxconn < minconn then some .maxconnLtMinconn
  else if num_workers < 1 then some .numWorkersLtOne
  else none

/-- The pool state right after a successfully validated constructor
(pool.py lines 83-105): `nconns = minconn`, empty idle deque and waiter
queue, not closed, and `minconn` `AddInitialConnection` tasks posted. -/
def initial_state (minconn maxconn : Int) (max_idle reconnect_timeout : ℚ)
    (num_workers : Nat) : PoolState :=
  { minconn := minconn
    maxconn := maxconn
    max_idle := max_idle
    reconnect_timeout := reconnect_timeout
    num_workers := num_workers
    nconns := minconn
    pool := []
    waiting := []
    is_closed := false
    tasks := List.replicate minconn.toNat .AddInitialConnection }

/-- One transition of the pool's shared state.  Each constructor is one of
the code's lock-protected mutations: the `getconn` critical section; a
worker running an `AddInitialConnection`/`AddConnection` task whose
`connect` succeeded, or a `ReturnConnection` task, all of which call
`_add_to_pool`; a client calling `putconn`; `close`; and an `AddConnection`
task whose `_handle_error` takes the give-up branch, which decrements
`nconns` under the lock. -/
inductive PoolStep : PoolState → PoolState → Prop where
  | getconn (s : PoolState) (w : Nat) : PoolStep s (getconn_cs s w).2
  | run_initial (s : PoolState) (c : Connection) (now : ℚ)
      (h : PoolTask.AddInitialConnection ∈ s.tasks) :
      PoolStep s (add_to_pool (consume_task s .AddInitialConnection) c now).state
  | run_add (s : PoolState) (c : Connection) (now : ℚ)
      (h : PoolTask.AddConnection ∈ s.tasks) :
      PoolStep s (add_to_pool (consume_task s .AddConnection) c now).state
  | run_return (s : PoolState) (c : Connection) (now : ℚ)
      (h : PoolTask.ReturnConnection c ∈ s.tasks) :
      PoolStep s (add_to_pool (consume_task s (.ReturnConnection c)) c now).state
  | putconn (s : PoolState) (self_id : Nat) (c : Connection) :
      PoolStep s (putconn s self_id c).2
  | close (s : PoolState) : PoolStep s (close_pool s).1
  | grow_give_up (s : PoolState) (t : AddConnectionState) (now r : ℚ)
      (h : PoolTask.AddConnection ∈ s.tasks)
      (hgu : (handle_error t s now r).action = .giveUp) :
      PoolStep s { consume_task s .AddConnection with nconns := s.nconns - 1 }

/-- A pool state reachable from a constructor state by lock-protected
transitions. -/
def Reachable (init : PoolState) (s : PoolState) : Prop :=
  Relation.ReflTransGen PoolStep init s

/-! ## C4: constructor validation -/

/-- C4 counterexample: at `minconn = -1`, `maxconn` absent, `num_workers = 1`,
the configuration is invalid in the claim's sense (`minConns < 0`), yet
`ConnectionPool.__init__`'s validation raises nothing, so "raises a
configuration error if and only if the configuration is invalid" is false. -/
theorem C4_validation_counterexample :
    ¬ ((validate_config (-1) none 1).isSome ↔
        ((Option.getD (none : Option Int) (-1) < (-1 : Int)) ∨
          (-1 : Int) < 0 ∨ (1 : Int) < 1)) := by
  decide

/-- C4 amended: the constructor raises a configuration error (before starting
any thread) if and only if `maxconn < minconn` (with `maxconn` defaulting to
`minconn` when absent) or `num_workers < 1`; a negative `minconn` alone is
accepted without error. -/
theorem C4_validation_amended (minconn : Int) (maxconn? : Option Int)
    (num_workers : Int) :
    (validate_config minconn maxconn? num_workers).isSome ↔
      (maxconn?.getD minconn < minconn ∨ num_workers < 1) := by
  unfold validate_config
  by_cases h1 : maxconn?.getD minconn < minconn <;>
    by_cases h2 : num_workers < 1 <;> simp [h1, h2]

/-! ## C10: the give-up branch is unreachable on a task's first failure -/

/-- C10: a fresh `AddConnection` task has `give_up_at = 0.0`, which is falsy,
so `_handle_error` on the task's first connect failure never takes the
give-up branch: `reconnect_failed` is not called, `nconns` is untouched, and
a retry is scheduled (relative or absolute) — for every pool configuration,
including `reconnect_timeout = 0`, and at every current time. -/
theorem C10_first_failure_always_retries (s : PoolState) (now r : ℚ) :
    (handle_error AddConnectionState.initial s now r).reconnect_failed_called
        = false ∧
    (handle_error AddConnectionState.initial s now r).nconns = s.nconns ∧
    ((handle_error AddConnectionState.initial s now r).action =
        .enter (handle_error AddConnectionState.initial s now r).task.delay ∨
      (handle_error AddConnectionState.initial s now r).action =
        .enterabs (handle_error AddConnectionState.initial s now r).task.give_up_at) := by
  unfold handle_error AddConnectionState.initial
  rw [if_neg (by simp)]
  dsimp only
  split_ifs <;> simp

/-! ## C5: the reconnection backoff policy -/

/-- A sample configured pool used by concrete witnesses:
`minconn = 1`, `maxconn = 2`, `max_idle = 600`, `reconnect_timeout = 300`,
`num_workers = 3`. -/
def sample_pool : PoolState := initial_state 1 2 600 300 3

/-- C5: `_handle_error` implements the documented backoff policy.  On a
fresh task's first failure it sets `give_up_at = now + reconnect_timeout`
and `delay = INITIAL_DELAY` scaled by a factor in `[0.9, 1.1]`; each later
failure that does not give up multiplies `delay` by `DELAY_BACKOFF = 2`;
the retry is scheduled after `delay` when `now + delay < give_up_at` and
exactly at `give_up_at` otherwise; and when the task observes a non-zero
`give_up_at` with `now ≥ give_up_at`, it gives up: `nconns` is decremented
and `reconnect_failed` is invoked instead of scheduling a retry. -/
theorem C5_backoff_policy (t : AddConnectionState) (s : PoolState) (now r : ℚ)
    (hr0 : 0 ≤ r) (hr1 : r < 1) :
    (t = AddConnectionState.initial →
      (handle_error t s now r).task.give_up_at = now + s.reconnect_timeout ∧
      ∃ factor : ℚ, (handle_error t s now r).task.delay = INITIAL_DELAY * factor ∧
        9 / 10 ≤ factor ∧ factor ≤ 11 / 10) ∧
    (¬ (t.give_up_at ≠ 0 ∧ now ≥ t.give_up_at) → t.delay ≠ 0 →
      (handle_error t s now r).task.delay = t.delay * DELAY_BACKOFF) ∧
    (¬ (t.give_up_at ≠ 0 ∧ now ≥ t.give_up_at) →
      ((now + (handle_error t s now r).task.delay
          < (handle_error t s now r).task.give_up_at →
        (handle_error t s now r).action
          = .enter (handle_error t s now r).task.delay) ∧
       (¬ (now + (handle_error t s now r).task.delay
            < (handle_error t s now r).task.give_up_at) →
        (handle_error t s now r).action
          = .enterabs (handle_error t s now r).task.give_up_at))) ∧
    ((t.give_up_at ≠ 0 ∧ now ≥ t.give_up_at) →
      (handle_error t s now r).action = .giveUp ∧
      (handle_error t s now r).nconns = s.nconns - 1 ∧
      (handle_error t s now r).reconnect_failed_called = true) := by
  refine ⟨?_, ?_, ?_, ?_⟩
  · intro ht
    subst ht
    unfold handle_error AddConnectionState.initial
    rw [if_neg (by simp)]
    dsimp only
    rw [if_pos rfl]
    refine ⟨by split_ifs <;> rfl, 9 / 10 + r / 5, ?_, by linarith, by linarith⟩
    have : INITIAL_DELAY + INITIAL_DELAY * (2 * DELAY_JITTER * r - DELAY_JITTER)
        = INITIAL_DELAY * (9 / 10 + r / 5) := by
      unfold INITIAL_DELAY DELAY_JITTER
      ring
    split_ifs <;> simpa using this
  · intro hng hd
    unfold handle_error
    rw [if_neg hng]
    dsimp only
    rw [if_neg hd]
    split_ifs <;> rfl
  · intro hng
    unfold handle_error
    rw [if_neg hng]
    dsimp only
    split_ifs with h1 h2 h2 <;>
      exact ⟨fun hc => by first | rfl | exact absurd hc (by simpa using h2),
             fun hc => by first | rfl | exact absurd h2 (by simpa using hc)⟩
  · intro hy
    unfold handle_error
    rw [if_pos hy]
    exact ⟨rfl, rfl, rfl⟩

/-- C5 witness: the first failure of a fresh task at `now = 5` with
`r = 1/2` in `sample_pool` sets `give_up_at = 5 + 300`. -/
theorem C5_backoff_policy_witness :
    (0 : ℚ) ≤ 1 / 2 ∧ (1 / 2 : ℚ) < 1 ∧
    (handle_error AddConnectionState.initial sample_pool 5 (1 / 2)).task.give_up_at
      = 5 + sample_pool.reconnect_timeout :=
  ⟨by norm_num, by norm_num,
    ((C5_backoff_policy AddConnectionState.initial sample_pool 5 (1 / 2)
        (by norm_num) (by norm_num)).1 rfl).1⟩

/-! ## C9: the putconn contract -/

/-- A sample connection owned by pool 7, as handed out by `getconn`. -/
def sample_conn : Connection :=
  { ident := 0, transaction_status := .IDLE, rollback_ok := true
    is_closed := false, pool_ref := some 7 }

/-- C9: `putconn` raises `ValueError` exactly when the connection's `_pool`
back-reference is absent or names a different pool; when it names this pool
and the pool is closed, the back-reference is cleared and the connection is
closed synchronously with no task posted and the pool state untouched; when
the pool is open, a `ReturnConnection` task carrying the untouched
connection is posted and nothing else changes. -/
theorem C9_putconn_contract (s : PoolState) (self_id : Nat) (conn : Connection) :
    ((putconn s self_id conn).1 = .valueError ↔ conn.pool_ref ≠ some self_id) ∧
    (conn.pool_ref = some self_id → s.is_closed = true →
      (putconn s self_id conn).1
          = .closedSync (Connection.closeIt { conn with pool_ref := none }) ∧
      (Connection.closeIt { conn with pool_ref := none }).is_closed = true ∧
      (Connection.closeIt { conn with pool_ref := none }).pool_ref = none ∧
      (putconn s self_id conn).2 = s) ∧
    (conn.pool_ref = some self_id → s.is_closed = false →
      (putconn s self_id conn).1 = .returnTaskPosted ∧
      (putconn s self_id conn).2
          = { s with tasks := s.tasks ++ [.ReturnConnection conn] }) := by
  refine ⟨?_, ?_, ?_⟩
  · by_cases h : conn.pool_ref = some self_id
    · simp only [putconn, h, ne_eq, not_true_eq_false, if_false]
      split_ifs <;> simp [h]
    · simp [putconn, h]
  · intro h hc
    simp [putconn, h, hc, Connection.closeIt, add_task]
  · intro h hc
    simp [putconn, h, hc, add_task]

/-- C9 witness: returning `sample_conn` to its own pool 7 posts a task when
the pool is open and leaves the state untouched when it is closed. -/
theorem C9_putconn_contract_witness :
    sample_conn.pool_ref = some 7 ∧
    (putconn { sample_pool with is_closed := true } 7 sample_conn).2
        = { sample_pool with is_closed := true } ∧
    (putconn sample_pool 7 sample_conn).1 = .returnTaskPosted :=
  ⟨rfl,
   ((C9_putconn_contract { sample_pool with is_closed := true } 7
      sample_conn).2.1 rfl rfl).2.2.2,
   ((C9_putconn_contract sample_pool 7 sample_conn).2.2 rfl rfl).1⟩

/-! ## C8: deposit-time transaction reset -/

/-- C8: `_reset_transaction_status` leaves `IDLE` connections alone, rolls
back `INTRANS`/`INERROR` connections (closing them when the rollback
throws), and closes `ACTIVE` connections; and when the status after reset
is `UNKNOWN`, `_add_to_pool` discards the connection, posts a replacement
`AddConnection` task, and leaves `nconns` (and the idle deque and waiter
queue) unchanged. -/
theorem C8_reset_contract (c : Connection) (s : PoolState) (now : ℚ) :
    (c.transaction_status = .IDLE → reset_transaction_status c = c) ∧
    ((c.transaction_status = .INTRANS ∨ c.transaction_status = .INERROR) →
      (c.rollback_ok = true →
        reset_transaction_status c = { c with transaction_status := .IDLE }) ∧
      (c.rollback_ok = false → reset_transaction_status c = c.closeIt)) ∧
    (c.transaction_status = .ACTIVE → reset_transaction_status c = c.closeIt) ∧
    ((reset_transaction_status { c with pool_ref := none }).transaction_status
        = .UNKNOWN →
      (add_to_pool s c now).state.nconns = s.nconns ∧
      (add_to_pool s c now).state.pool = s.pool ∧
      (add_to_pool s c now).state.waiting = s.waiting ∧
      (add_to_pool s c now).state.tasks = s.tasks ++ [.AddConnection] ∧
      (add_to_pool s c now).discarded
          = some (reset_transaction_status { c with pool_ref := none }) ∧
      (add_to_pool s c now).handed = none) := by
  refine ⟨?_, ?_, ?_, ?_⟩
  · intro h
    simp [reset_transaction_status, h]
  · intro h
    constructor <;> intro hr <;> rcases h with h | h <;>
      simp [reset_transaction_status, h, hr, Connection.rollbackIt]
  · intro h
    simp [reset_transaction_status, h]
  · intro h
    unfold add_to_pool
    rw [if_pos h]
    exact ⟨rfl, rfl, rfl, rfl, rfl, rfl⟩

/-- A connection returned inside a transaction whose rollback succeeds. -/
def intrans_conn : Connection :=
  { ident := 1, transaction_status := .INTRANS, rollback_ok := true
    is_closed := false, pool_ref := some 7 }

/-- A dead connection (transaction status unknown). -/
def dead_conn : Connection :=
  { ident := 2, transaction_status := .UNKNOWN, rollback_ok := true
    is_closed := true, pool_ref := some 7 }

/-- C8 witness: an `INTRANS` connection is rolled back to `IDLE`, and
depositing a dead connection recycles its slot: `nconns` unchanged and a
replacement `AddConnection` task posted. -/
theorem C8_reset_contract_witness :
    reset_transaction_status intrans_conn
        = { intrans_conn with transaction_status := .IDLE } ∧
    (add_to_pool sample_pool dead_conn 3).state.nconns = sample_pool.nconns ∧
    (add_to_pool sample_pool dead_conn 3).state.tasks
        = sample_pool.tasks ++ [.AddConnection] :=
  ⟨((C8_reset_contract intrans_conn sample_pool 3).2.1 (Or.inl rfl)).1 rfl,
   ((C8_reset_contract dead_conn sample_pool 3).2.2.2 rfl).1,
   ((C8_reset_contract dead_conn sample_pool 3).2.2.2 rfl).2.2.2.1⟩

/-! ## C6: LIFO checkout, FIFO eviction -/

/-- In `_add_to_pool` with no waiter and `nconns ≤ minconn`, the connection
is appended at the right end of the idle deque and nothing is evicted. -/
lemma add_to_pool_append_no_evict (s : PoolState) (c : Connection) (now : ℚ)
    (hw : s.waiting = [])
    (hst : (reset_transaction_status { c with pool_ref := none }).transaction_status
        ≠ .UNKNOWN)
    (hn : ¬ s.minconn < s.nconns) :
    (add_to_pool s c now).state
      = { s with pool :=
            s.pool ++ [(reset_transaction_status { c with pool_ref := none }, now)] } := by
  unfold add_to_pool
  dsimp only
  rw [if_neg hst, hw]
  dsimp only
  split
  · rename_i heq
    exact absurd heq (by simp)
  · rename_i c0 t0 tl heq
    rw [if_neg (fun hand => hn hand.1)]
    simp [← heq]

/-- In `_add_to_pool` with no waiter, once the idle deque after the append
is written head-first, the whole outcome is decided by the eviction test on
the oldest entry. -/
lemma add_to_pool_no_waiter (s : PoolState) (c : Connection) (now : ℚ)
    (hw : s.waiting = [])
    (hst : (reset_transaction_status { c with pool_ref := none }).transaction_status
        ≠ .UNKNOWN)
    (c0 : Connection) (t0 : ℚ) (tl : List (Connection × ℚ))
    (hp : s.pool ++ [(reset_transaction_status { c with pool_ref := none }, now)]
        = (c0, t0) :: tl) :
    add_to_pool s c now =
      if s.nconns > s.minconn ∧ now - t0 > s.max_idle then
        { state := { s with pool := tl, nconns := s.nconns - 1 }
          handed := none, to_close := some c0, discarded := none }
      else
        { state := { s with pool := (c0, t0) :: tl }
          handed := none, to_close := none, discarded := none } := by
  unfold add_to_pool
  dsimp only
  rw [if_neg hst, hw]
  dsimp only
  split
  · rename_i heq
    exact absurd heq (by simp)
  · rename_i d0 u0 utl heq
    rw [hp] at heq
    injection heq with heq1 heq2
    injection heq1 with heqc heqt
    subst heqc heqt heq2
    rfl

/-- `getconn` pops the right end (most recent deposit) of the idle deque. -/
lemma getconn_pops_last (s : PoolState) (w : Nat) (c : Connection) (t : ℚ)
    (l : List (Connection × ℚ))
    (hcl : s.is_closed = false) (hp : s.pool = l ++ [(c, t)]) :
    (getconn_cs s w).1 = .gotConn c ∧ (getconn_cs s w).2 = { s with pool := l } := by
  unfold getconn_cs
  rw [hcl, hp]
  simp [List.getLast?_concat]

/-- C6: the idle deque obeys stack discipline with FIFO eviction.  First,
depositing `c1` then `c2` into a pool with no waiters (and no eviction,
ensured by `nconns ≤ minconn`) makes the next `getconn` return `c2`.
Second, a deposit with no waiter evicts exactly when `nconns > minconn` and
the oldest entry's idle age strictly exceeds `max_idle`; when it does, the
oldest entry is removed, `nconns` is decremented, and the evicted
connection is returned in `to_close` for closing after the lock is
released; otherwise the deque and `nconns` are untouched and nothing is
closed. -/
theorem C6_stack_discipline (s : PoolState) (c1 c2 : Connection) (t1 t2 : ℚ) (w : Nat)
    (hw : s.waiting = []) (hcl : s.is_closed = false)
    (h1 : (reset_transaction_status { c1 with pool_ref := none }).transaction_status
        ≠ .UNKNOWN)
    (h2 : (reset_transaction_status { c2 with pool_ref := none }).transaction_status
        ≠ .UNKNOWN)
    (hn : ¬ s.minconn < s.nconns) :
    (getconn_cs (add_to_pool (add_to_pool s c1 t1).state c2 t2).state w).1
        = .gotConn (reset_transaction_status { c2 with pool_ref := none }) ∧
    (∀ (s' : PoolState) (c : Connection) (now : ℚ)
        (c0 : Connection) (t0 : ℚ) (tl : List (Connection × ℚ)),
      s'.waiting = [] →
      (reset_transaction_status { c with pool_ref := none }).transaction_status
          ≠ .UNKNOWN →
      s'.pool ++ [(reset_transaction_status { c with pool_ref := none }, now)]
          = (c0, t0) :: tl →
      (if s'.nconns > s'.minconn ∧ now - t0 > s'.max_idle then
        (add_to_pool s' c now).state.pool = tl ∧
        (add_to_pool s' c now).state.nconns = s'.nconns - 1 ∧
        (add_to_pool s' c now).to_close = some c0
      else
        (add_to_pool s' c now).state.pool = (c0, t0) :: tl ∧
        (add_to_pool s' c now).state.nconns = s'.nconns ∧
        (add_to_pool s' c now).to_close = none)) := by
  constructor
  · have e1 := add_to_pool_append_no_evict s c1 t1 hw h1 hn
    have hw1 : (add_to_pool s c1 t1).state.waiting = [] := by rw [e1]; exact hw
    have hn1 : ¬ (add_to_pool s c1 t1).state.minconn
        < (add_to_pool s c1 t1).state.nconns := by rw [e1]; exact hn
    have e2 := add_to_pool_append_no_evict (add_to_pool s c1 t1).state c2 t2 hw1 h2 hn1
    have hcl2 : (add_to_pool (add_to_pool s c1 t1).state c2 t2).state.is_closed
        = false := by rw [e2, e1]; exact hcl
    have hp2 : (add_to_pool (add_to_pool s c1 t1).state c2 t2).state.pool
        = (add_to_pool s c1 t1).state.pool
          ++ [(reset_transaction_status { c2 with pool_ref := none }, t2)] := by
      rw [e2]
    exact (getconn_pops_last _ w _ t2 _ hcl2 hp2).1
  · intro s' c now c0 t0 tl hw' hst' hp'
    rw [add_to_pool_no_waiter s' c now hw' hst' c0 t0 tl hp']
    by_cases hcond : s'.nconns > s'.minconn ∧ now - t0 > s'.max_idle <;>
      simp [hcond]

/-- C6 witness: in the freshly constructed `sample_pool`, depositing
`sample_conn` at time 1 and then `intrans_conn` at time 2 makes the next
`getconn` return the reset `intrans_conn` (the most recent deposit). -/
theorem C6_stack_discipline_witness :
    (getconn_cs (add_to_pool (add_to_pool sample_pool sample_conn 1).state
        intrans_conn 2).state 0).1
      = .gotConn (reset_transaction_status { intrans_conn with pool_ref := none }) :=
  (C6_stack_discipline sample_pool sample_conn intrans_conn 1 2 0 rfl rfl
    (by decide) (by decide) (by decide)).1

/-! ## C7: a waiter never coexists with an idle connection -/

/-- The invariant: a non-empty waiter queue forces an empty idle deque. -/
def waiter_excludes_idle (s : PoolState) : Prop := s.waiting ≠ [] → s.pool = []

/-- The `getconn` critical section preserves [[waiter_excludes_idle]]: it
enqueues a waiter only after finding the idle deque empty. -/

lemma getconn_cs_preserves_wei (s : PoolState) (w : Nat)
    (h : waiter_excludes_idle s) : waiter_excludes_idle (getconn_cs s w).2 := by
  unfold getconn_cs
  split_ifs with hcl
  · exact h
  · cases hp : s.pool.getLast? with
    | some ct =>
        cases ct with
        | mk c t =>
            intro hwne
            have hpe : s.pool = [] := h hwne
            rw [hpe] at hp
            simp at hp
    | none =>
        have hpe : s.pool = [] := by simpa using hp
        dsimp only
        split_ifs <;> intro _ <;> simpa [add_task] using hpe

/-- `_add_to_pool` preserves the invariant: it pushes onto the idle deque
only after finding the waiter queue empty. -/
lemma add_to_pool_preserves_wei (s : PoolState) (c : Connection) (now : ℚ)
    (h : waiter_excludes_idle s) :
    waiter_excludes_idle (add_to_pool s c now).state := by
  unfold add_to_pool
  dsimp only
  split_ifs with hst
  · exact fun hw => h hw
  · split
    · rename_i w rest heq
      intro _
      exact h (by rw [heq]; simp)
    · rename_i heq
      split
      · rename_i heq2
        exact absurd heq2 (by simp)
      · rename_i c0 t0 tl heq2
        split_ifs <;> exact fun hwne => absurd heq hwne

/-- Every lock-protected transition preserves the invariant. -/
lemma poolStep_preserves_wei {s s' : PoolState} (hstep : PoolStep s s')
    (h : waiter_excludes_idle s) : waiter_excludes_idle s' := by
  cases hstep with
  | getconn w => exact getconn_cs_preserves_wei s w h
  | run_initial c now hm => exact add_to_pool_preserves_wei _ c now h
  | run_add c now hm => exact add_to_pool_preserves_wei _ c now h
  | run_return c now hm => exact add_to_pool_preserves_wei _ c now h
  | putconn self_id c =>
      unfold Psycopg.putconn
      split_ifs <;> exact fun hw => h hw
  | close => exact fun hw => absurd rfl hw
  | grow_give_up t now r hm hgu => exact fun hw => h hw

/-- C7: in every pool state reachable from a constructor state, a waiter
never coexists with an idle connection: a non-empty waiter queue implies an
empty idle deque.  The proof is by induction over the transitions: `getconn`
enqueues a waiter only when the idle deque is empty, and `_add_to_pool`
pushes onto the idle deque only when the waiter queue is empty. -/
theorem C7_waiter_excludes_idle (minconn maxconn : Int) (mi rt : ℚ) (nw : Nat) (s : PoolState)
    (h : Reachable (initial_state minconn maxconn mi rt nw) s) :
    s.waiting ≠ [] → s.pool = [] := by
  induction h with
  | refl => exact fun _ => rfl
  | tail hsteps hstep ih => exact poolStep_preserves_wei hstep ih

/-- C7 witness: after one `getconn` on the freshly constructed
`sample_pool` (whose idle deque is still empty), there is a waiter and the
idle deque is empty. -/
theorem C7_waiter_excludes_idle_witness :
    ((getconn_cs sample_pool 0).2).waiting ≠ [] ∧
    ((getconn_cs sample_pool 0).2).pool = [] :=
  ⟨by decide,
   C7_waiter_excludes_idle 1 2 600 300 3 _
     (Relation.ReflTransGen.single (PoolStep.getconn sample_pool 0)) (by decide)⟩

/-! ## C1: the connection census stays within the configured band -/

/-- The census invariant: `minconn ≤ nconns ≤ maxconn`. -/
def census_in_band (s : PoolState) : Prop :=
  s.minconn ≤ s.nconns ∧ s.nconns ≤ s.maxconn

instance (s : PoolState) : Decidable (census_in_band s) :=
  inferInstanceAs (Decidable (_ ∧ _))

/-- C1 amended: the grow branch of the `getconn` critical section and every
branch of `_add_to_pool` (including idle eviction) preserve
`minconn ≤ nconns ≤ maxconn`; the give-up branch of
`AddConnection._handle_error` always preserves the upper bound, but
preserves the lower bound only when `nconns > minconn` on entry — which
holds when the task was posted by the grow branch, but not when it was
posted as a replacement for a discarded connection with `nconns = minconn`
(see the counterexample). -/
theorem C1_census_amended :
    (∀ (s : PoolState) (w : Nat), census_in_band s → census_in_band (getconn_cs s w).2) ∧
    (∀ (s : PoolState) (c : Connection) (now : ℚ),
      census_in_band s → census_in_band (add_to_pool s c now).state) ∧
    (∀ (t : AddConnectionState) (s : PoolState) (now r : ℚ), census_in_band s →
      (handle_error t s now r).nconns ≤ s.maxconn ∧
      (s.minconn < s.nconns → s.minconn ≤ (handle_error t s now r).nconns)) := by
  refine ⟨?_, ?_, ?_⟩
  · intro s w h
    obtain ⟨h1, h2⟩ := h
    unfold getconn_cs
    split_ifs with hcl
    · exact ⟨h1, h2⟩
    · cases hp : s.pool.getLast? with
      | some ct => exact ⟨h1, h2⟩
      | none =>
          dsimp only
          split_ifs with hg
          · exact ⟨by dsimp [add_task]; omega, by dsimp [add_task]; omega⟩
          · exact ⟨h1, h2⟩
  · intro s c now h
    obtain ⟨h1, h2⟩ := h
    unfold add_to_pool
    dsimp only
    split_ifs with hst
    · exact ⟨h1, h2⟩
    · split
      · exact ⟨h1, h2⟩
      · split
        · exact ⟨h1, h2⟩
        · split_ifs with hev
          · exact ⟨by dsimp; omega, by dsimp; omega⟩
          · exact ⟨h1, h2⟩
  · intro t s now r h
    obtain ⟨h1, h2⟩ := h
    unfold handle_error
    dsimp only
    split_ifs <;> exact ⟨by dsimp; omega, fun hlt => by dsimp; omega⟩

/-- C1 amended witness: the preservation statements applied to the sample
pool, a deposit into it, and a give-up of a retry task. -/
theorem C1_census_amended_witness :
    census_in_band (getconn_cs sample_pool 0).2 ∧
    census_in_band (add_to_pool sample_pool sample_conn 1).state ∧
    (handle_error { delay := 1, give_up_at := 5 } sample_pool 6 0).nconns
      ≤ sample_pool.maxconn :=
  ⟨C1_census_amended.1 sample_pool 0 (by decide),
   C1_census_amended.2.1 sample_pool sample_conn 1 (by decide),
   (C1_census_amended.2.2 { delay := 1, give_up_at := 5 } sample_pool 6 0
      (by decide)).1⟩

/-- A pool constructed with `minconn = maxconn = 1`. -/
def cx_init : PoolState := initial_state 1 1 600 300 3

def cx_fresh : Connection :=
  { ident := 0, transaction_status := .IDLE, rollback_ok := true
    is_closed := false, pool_ref := some 7 }

def cx_dead : Connection :=
  { ident := 0, transaction_status := .UNKNOWN, rollback_ok := true
    is_closed := true, pool_ref := some 7 }

def cx_s1 : PoolState := (add_to_pool (consume_task cx_init .AddInitialConnection) cx_fresh 1).state
def cx_s2 : PoolState := (getconn_cs cx_s1 0).2
def cx_s3 : PoolState := (putconn cx_s2 7 cx_dead).2
def cx_s4 : PoolState := (add_to_pool (consume_task cx_s3 (.ReturnConnection cx_dead)) cx_dead 2).state
def cx_s5 : PoolState := { consume_task cx_s4 .AddConnection with nconns := cx_s4.nconns - 1 }

/-- C1 counterexample: a reachable violation of the census band.  In a pool
with `minconn = maxconn = 1`, the one connection is handed out, returned
dead, and discarded by `_add_to_pool`, which posts a replacement
`AddConnection` task without touching `nconns` (state `cx_s4`, whose task
queue holds exactly that replacement task and whose census is at the
minimum).  When that replacement task exhausts its reconnection deadline,
the give-up branch decrements `nconns` to `0 < minconn`: the claimed
invariant fails on a reachable state, so the give-up branch of
`_handle_error` does not preserve the lower bound for replacement tasks. -/
theorem C1_census_counterexample :
    Reachable cx_init cx_s5 ∧
    census_in_band cx_init ∧
    cx_s4.tasks = [.AddConnection] ∧
    cx_s4.nconns = cx_s4.minconn ∧
    census_in_band cx_s4 ∧
    ¬ census_in_band cx_s5 := by
  refine ⟨?_, by decide, by decide, by decide, by decide, by decide⟩
  have h1 : PoolStep cx_init cx_s1 :=
    PoolStep.run_initial cx_init cx_fresh 1 (by decide)
  have h2 : PoolStep cx_s1 cx_s2 := PoolStep.getconn cx_s1 0
  have h3 : PoolStep cx_s2 cx_s3 := PoolStep.putconn cx_s2 7 cx_dead
  have h4 : PoolStep cx_s3 cx_s4 :=
    PoolStep.run_return cx_s3 cx_dead 2 (by decide)
  have h5 : PoolStep cx_s4 cx_s5 :=
    PoolStep.grow_give_up cx_s4 ⟨1, 5⟩ 6 0 (by decide) (by decide)
  exact Relation.ReflTransGen.tail
    (Relation.ReflTransGen.tail
      (Relation.ReflTransGen.tail
        (Relation.ReflTransGen.tail (Relation.ReflTransGen.single h1) h2) h3) h4) h5
/-! ## C2: deposit after close -/

def c2_s1 : PoolState :=
  (add_to_pool (consume_task cx_init .AddInitialConnection) cx_fresh 1).state
def c2_s2 : PoolState := (getconn_cs c2_s1 0).2
def c2_s3 : PoolState := (putconn c2_s2 7 cx_dead).2
def c2_s4 : PoolState :=
  (add_to_pool (consume_task c2_s3 (.ReturnConnection cx_dead)) cx_dead 2).state
def c2_s5 : PoolState := (close_pool c2_s4).1
def c2_dep : DepositOutcome := add_to_pool (consume_task c2_s5 .AddConnection) sample_conn 5

/-- C2 refuted by the code: `_add_to_pool` never consults `_closed`.  In a
reachable closed pool with a pending replacement `AddConnection` task
(`c2_s5`: closed, waiter queue and idle deque already drained by `close`),
the task's deposit appends the new connection to the idle deque of the
closed pool; nothing is closed (`to_close = none`, and the deposited
connection's closed flag is still false) and no waiter is served.  Since
`close` has already drained the idle deque, nobody will ever close this
connection: the code inserts instead of closing, contradicting the claim. -/
theorem C2_closed_deposit_inserts :
    Reachable cx_init c2_dep.state ∧
    c2_s5.is_closed = true ∧ c2_s5.waiting = [] ∧ c2_s5.pool = [] ∧
    c2_s5.tasks = [.AddConnection, .StopWorker, .StopWorker, .StopWorker] ∧
    c2_dep.state.is_closed = true ∧
    c2_dep.state.pool = [({ sample_conn with pool_ref := none }, 5)] ∧
    c2_dep.to_close = none ∧
    c2_dep.handed = none ∧
    ({ sample_conn with pool_ref := none } : Connection).is_closed = false := by
  refine ⟨?_, by decide, by decide, by decide, by decide, by decide, by decide,
    by decide, by decide, by decide⟩
  have h1 : PoolStep cx_init c2_s1 :=
    PoolStep.run_initial cx_init cx_fresh 1 (by decide)
  have h2 : PoolStep c2_s1 c2_s2 := PoolStep.getconn c2_s1 0
  have h3 : PoolStep c2_s2 c2_s3 := PoolStep.putconn c2_s2 7 cx_dead
  have h4 : PoolStep c2_s3 c2_s4 :=
    PoolStep.run_return c2_s3 cx_dead 2 (by decide)
  have h5 : PoolStep c2_s4 c2_s5 := PoolStep.close c2_s4
  have h6 : PoolStep c2_s5 c2_dep.state :=
    PoolStep.run_add c2_s5 sample_conn 5 (by decide)
  exact Relation.ReflTransGen.tail
    (Relation.ReflTransGen.tail
      (Relation.ReflTransGen.tail
        (Relation.ReflTransGen.tail
          (Relation.ReflTransGen.tail (Relation.ReflTransGen.single h1) h2) h3) h4) h5) h6

/-! ## C3: the waiter-timeout race -/

/-- The fields of `WaitingClient` (pool.py lines 383-409): the event flag,
the stored connection (unset until `set`), and the stored error. -/
structure WaitingClientState where
  event_set : Bool
  conn : Option Connection
  has_error : Bool
deriving DecidableEq, Repr

/-- `WaitingClient.__init__`: event clear, no connection, no error. -/
def wc_initial : WaitingClientState :=
  { event_set := false, conn := none, has_error := false }

/-- `WaitingClient.set` (pool.py lines 401-404): store the connection and
set the event.  There is no return value and no check of whether the
waiter is still interested. -/
def wc_set (w : WaitingClientState) (c : Connection) : WaitingClientState :=
  { w with conn := some c, event_set := true }

/-- `WaitingClient.fail` (pool.py lines 406-409): store the error and set
the event. -/
def wc_fail (w : WaitingClientState) : WaitingClientState :=
  { w with has_error := true, event_set := true }

inductive WaitOutcome where
  | timeoutError
  | suppliedError
  | got (c : Connection)
  | unset
deriving DecidableEq, Repr

/-- `WaitingClient.wait` (pool.py lines 393-399), where `signalled_in_time`
is the value of `event.wait(timeout)`: raise `PoolTimeout` when the event
was not set in time (leaving the waiter enqueued), else raise the stored
error or return the stored connection. -/
def wc_wait (w : WaitingClientState) (signalled_in_time : Bool) : WaitOutcome :=
  if signalled_in_time = false then .timeoutError
  else if w.has_error then .suppliedError
  else
    match w.conn with
    | some c => .got c
    | none => .unset

def c3_s0 : PoolState := initial_state 0 1 600 300 3
def c3_s1 : PoolState := (getconn_cs c3_s0 0).2
def c3_dep : DepositOutcome := add_to_pool (consume_task c3_s1 .AddConnection) sample_conn 5

/-- C3 refuted by the code: the timed-out waiter race leaks the
connection.  A client waits on an empty one-slot pool (`c3_s1` holds the
waiter) and its `wait` times out, raising `PoolTimeout` without removing
the waiter from the queue and without any signal back.  The deposit that
follows pops that abandoned waiter and hands it the connection
(`handed = some (0, conn)`); `wc_set` blindly stores the connection in the
abandoned waiter; and afterwards the pool state holds the connection
nowhere — idle deque empty, no task pending, nothing closed — and the
timed-out client got an exception, not a connection.  No re-deposit
happens anywhere, contradicting the claim. -/
theorem C3_timeout_race_leak :
    wc_wait wc_initial false = .timeoutError ∧
    c3_s1.waiting = [0] ∧
    c3_dep.handed = some (0, { sample_conn with pool_ref := none }) ∧
    wc_set wc_initial { sample_conn with pool_ref := none }
      = { event_set := true, conn := some { sample_conn with pool_ref := none }
          has_error := false } ∧
    c3_dep.state.pool = [] ∧
    c3_dep.state.waiting = [] ∧
    c3_dep.state.tasks = [] ∧
    c3_dep.to_close = none ∧
    c3_dep.discarded = none ∧
    Reachable c3_s0 c3_dep.state := by
  refine ⟨by decide, by decide, by decide, by decide, by decide, by decide,
    by decide, by decide, by decide, ?_⟩
  exact Relation.ReflTransGen.tail
    (Relation.ReflTransGen.single (PoolStep.getconn c3_s0 0))
    (PoolStep.run_add c3_s1 sample_conn 5 (by decide))

end Psycopg
